import Mathlib

set_option maxRecDepth 10000

/-!
Shallow embedding of `src/os/unix.rs` (the Unix backend of the `whoami`
repository).  Strings are modelled as lists of characters (`Str`); the
operating-system environment a query runs against (environment variables,
file contents, native-call results) is gathered in an explicit `OsState`
record, and every accessor of the capability facade is a pure function of
that state.  Fallible Rust code returning `std::io::Result` is modelled
with `Except WhoError`; code that can panic (Rust `todo!()` or an
out-of-bounds slice) is modelled with `RustOutcome`.
-/

namespace Whoami

/-- Character-list model of Rust `str` / `String` / decoded byte buffers. -/
abbrev Str := List Char

/-- Model of `std::io::ErrorKind` (only the kinds the source constructs). -/
inductive ErrKind where
  | notFound
  | invalidData
  | osError
  deriving DecidableEq, Repr

/-- Model of `std::io::Error`: a kind plus a message. -/
structure WhoError where
  kind : ErrKind
  msg : String
  deriving DecidableEq, Repr

/-- Outcome of running a piece of Rust code that may panic (`todo!()`,
slice out of bounds): either a normal return value or a panic. -/
inductive RustOutcome (α : Type) where
  | normal (value : α)
  | panicked (msg : String)
  deriving DecidableEq, Repr

/-- Modelled from the spec: the Desktop Environment Classification, "a closed
enumeration {Aqua, Gnome, Lxde, Openbox, I3, Ubuntu, Kde, ...} plus an open
`Unknown(name)` variant carrying the raw unrecognized value".  The enum
declaration itself is outside the provided sources; the variants are exactly
the ones `src/os/unix.rs` constructs. -/
inductive DesktopEnv where
  | Aqua
  | Gnome
  | Lxde
  | Openbox
  | I3
  | Ubuntu
  | Kde
  | Unknown (name : Str)
  deriving DecidableEq, Repr

/-- Modelled from the spec: the Architecture Classification, "a closed
enumeration of CPU architecture families plus an open `Unknown(name)`
variant carrying the raw machine-type string".  The variants are exactly the
ones `src/os/unix.rs` constructs. -/
inductive Arch where
  | Arm64
  | ArmV5
  | ArmV6
  | ArmV7
  | I386
  | I586
  | I686
  | Mips
  | MipsEl
  | Mips64
  | Mips64El
  | PowerPc
  | PowerPc64
  | PowerPc64Le
  | Riscv32
  | Riscv64
  | S390x
  | Sparc
  | Sparc64
  | X64
  | Unknown (name : Str)
  deriving DecidableEq, Repr

/-- Modelled from the spec: the Platform Classification, "a closed
enumeration {Linux, MacOS, Bsd, Illumos, ...}"; the variants are the ones
`src/os/unix.rs` constructs. -/
inductive Platform where
  | Linux
  | MacOS
  | Bsd
  | Illumos
  deriving DecidableEq, Repr

/-- Modelled from the spec: the language-preference value type.  The spec
treats language preferences as locale/language tags, so the type is modelled
as a wrapper around a tag string (the concrete enum declaration is outside
the provided sources; `src/os/unix.rs` only mentions `Vec<Language>`). -/
inductive Language where
  | tag (value : Str)
  deriving DecidableEq, Repr

/-- Model of the `nix` user-database record: account name and gecos
("full name") field, both already decoded to text. -/
structure UserRec where
  name : Str
  gecos : Str
  deriving DecidableEq, Repr

/-- Model of the `UtsName` buffer filled by the `uname` syscall, with each
field already decoded (`CStr::to_string_lossy`) to text. -/
structure UtsNameS where
  sysname : Str
  nodename : Str
  release : Str
  version : Str
  machine : Str
  deriving DecidableEq, Repr

/-- The read-only operating-system state a query observes: environment
variables, file contents (`Except` = result of `fs::read`), and native-call
results.  `gethostnameBuf` is the raw byte buffer written by `gethostname`
(NUL-terminated), before UTF-8 validation. -/
structure OsState where
  langEnv : Option Str
  desktopSession : Option Str
  userLookup : Except WhoError (Option UserRec)
  machineInfo : Except WhoError Str
  osRelease : Except WhoError Str
  gethostnameBuf : Except WhoError (List Nat)
  unameRes : Except WhoError UtsNameS

/-! ### Character-list primitives mirroring the Rust `str` operations used -/

/-- `str::split(sep)` for a `char` separator, collected in order; always
yields at least one (possibly empty) segment, like the Rust iterator. -/
def splitOnChar (sep : Char) : Str → List Str
  | [] => [[]]
  | c :: t =>
    if c = sep then [] :: splitOnChar sep t
    else
      match splitOnChar sep t with
      | [] => [[c]]
      | h :: r => (c :: h) :: r

/-- Index of the first occurrence of `pat` in `s` (`str::find` for a string
pattern); `some 0` for an empty pattern, like Rust. -/
def findSub (pat : Str) : Str → Option Nat
  | [] => if pat = [] then some 0 else none
  | c :: t =>
    if List.isPrefixOf pat (c :: t) then some 0
    else (findSub pat t).map (· + 1)

/-- `str::trim`: drop whitespace from both ends. -/
def trimS (s : Str) : Str :=
  ((s.dropWhile Char.isWhitespace).reverse.dropWhile Char.isWhitespace).reverse

/-- `str::trim_matches('"')`: drop all leading and trailing quote chars. -/
def trimQuotes (s : Str) : Str :=
  ((s.dropWhile (· == '"')).reverse.dropWhile (· == '"')).reverse

/-- Fuelled loop repeatedly removing a leading copy of `pat`; the fuel is
instantiated with the list length, which bounds the number of removals since
every step removes at least one element. -/
def stripLeadingF : Nat → Str → Str → Str
  | 0, _, s => s
  | n + 1, pat, s =>
    if pat ≠ [] ∧ List.isPrefixOf pat s then stripLeadingF n pat (s.drop pat.length)
    else s

/-- `str::trim_end_matches(pat)`: repeatedly remove a trailing copy of
`pat`, implemented by stripping the reversed pattern from the reversed
string. -/
def trimEndMatchesS (s pat : Str) : Str :=
  (stripLeadingF s.length pat.reverse s.reverse).reverse

/-- `u8::eq_ignore_ascii_case` lifted pointwise: lower-case the ASCII
letters of both sides and compare. -/
def asciiLower (c : Char) : Char :=
  if 'A' ≤ c ∧ c ≤ 'Z' then Char.ofNat (c.toNat + 32) else c

/-- `str::eq_ignore_ascii_case`. -/
def eqIgnoreAsciiCase (a b : Str) : Bool :=
  a.map asciiLower == b.map asciiLower

/-! ### The language tag decomposer (`LangIter` and `lang()`) -/

/-- State of the hand-rolled two-element iterator `LangIter`:
the remaining string and the `Option<bool>` index sentinel. -/
structure LangIter where
  array : Str
  index : Option Bool
  deriving DecidableEq, Repr

/-- One step of `<LangIter as Iterator>::next`.  In the first-step branch
(`index = some true` and the array contains a hyphen) the source computes
the segment before the first hyphen into `temp`, `mem::swap`s it with the
array and returns `temp` — so the *full* array is emitted and the base
segment is kept for the next step.  Otherwise the whole remaining array is
emitted, the array is left empty and the index sentinel cleared. -/
def LangIter.next (it : LangIter) : Option (Str × LangIter) :=
  match it.index with
  | none => none
  | some i =>
    if i && it.array.any (fun c => c == '-') then
      some (it.array, ⟨(splitOnChar '-' it.array).headD [], some false⟩)
    else
      some (it.array, ⟨[], none⟩)

/-- Drive a `LangIter` to exhaustion, collecting the emitted values.  The
fuel `3` suffices: `collectF_stable` below shows larger fuels collect the
same list. -/
def LangIter.collectF : Nat → LangIter → List Str
  | 0, _ => []
  | n + 1, it =>
    match it.next with
    | none => []
    | some (s, it2) => LangIter.collectF n it2 |>.cons s

/-- The fixed default language tag substituted for the `"C"` locale. -/
def DEFAULT_LANG : Str := "en_US".data

/-- The encoding-stripped locale: everything before the first `'.'` of the
`LANG` value (empty-string default when the variable is unset). -/
def langStrip (langEnv : Option Str) : Str :=
  (splitOnChar '.' (langEnv.getD [])).headD DEFAULT_LANG

/-- The `'_'`-to-`'-'` conversion applied by `lang()`. -/
def underscoreToHyphen (c : Char) : Char :=
  if c = '_' then '-' else c

/-- The processed array `lang()` seeds its iterator with: encoding suffix
stripped, `"C"` replaced by the default tag, underscores made hyphens. -/
def langArray (langEnv : Option Str) : Str :=
  let array := langStrip langEnv
  let array := if array = "C".data then DEFAULT_LANG else array
  array.map underscoreToHyphen

/-- `lang()`: build the iterator over the processed `LANG` value. -/
def lang (langEnv : Option Str) : LangIter :=
  ⟨langArray langEnv, some true⟩

/-- The full sequence emitted by `lang()` for a given `LANG` value. -/
def langList (langEnv : Option Str) : List Str :=
  LangIter.collectF 3 (lang langEnv)

/-! ### The property-list fragment parser (`distro_xml`, macOS-only code) -/

/-- The `Parsing failed` error both parsers construct. -/
def parseFailed : WhoError := ⟨.invalidData, "Parsing failed"⟩

/-- The two collected fields and the two "value armed" flags tracked while
scanning the `<dict>` block of a property-list fragment. -/
structure DxState where
  product_name : Option Str
  user_visible_version : Option Str
  set_product_name : Bool
  set_user_visible_version : Bool
  deriving DecidableEq, Repr

/-- The initial (nothing seen) scan state. -/
def dxInit : DxState := ⟨none, none, false, false⟩

/-- Processing of one (trimmed) line of the `<dict>` block: a `<key>` line
arms the matching field (the `ProductVersion` synonym only when no version
was captured yet); a `<string>` line fills whichever field is armed, the
name field taking precedence. -/
def dxLine (st : DxState) (line0 : Str) : DxState :=
  let line := trimS line0
  if List.isPrefixOf "<key>".data line then
    let k := trimEndMatchesS (line.drop 5) "</key>".data
    if k = "ProductName".data then { st with set_product_name := true }
    else if k = "ProductUserVisibleVersion".data then
      { st with set_user_visible_version := true }
    else if k = "ProductVersion".data then
      if st.user_visible_version = none then
        { st with set_user_visible_version := true }
      else st
    else st
  else if List.isPrefixOf "<string>".data line then
    if st.set_product_name then
      { st with
        product_name := some (trimEndMatchesS (line.drop 8) "</string>".data),
        set_product_name := false }
    else if st.set_user_visible_version then
      { st with
        user_visible_version := some (trimEndMatchesS (line.drop 8) "</string>".data),
        set_user_visible_version := false }
    else st
  else st

/-- Combination of the two collected fields after the scan: the name alone,
name-space-version, `Mac OS (Unknown) version`, or a parse failure. -/
def dxCombine (st : DxState) : Except WhoError Str :=
  match st.product_name with
  | some pn =>
    match st.user_visible_version with
    | some v => .ok (pn ++ " ".data ++ v)
    | none => .ok pn
  | none =>
    match st.user_visible_version with
    | some v => .ok ("Mac OS (Unknown) ".data ++ v)
    | none => .error parseFailed

/-- `distro_xml`: locate the first `<dict>`/`</dict>` pair, scan the lines
between them, and combine the collected fields.  The Rust slice
`data[start + 6 .. end]` panics when the `</dict>` index is in front of the
end of the `<dict>` marker, hence the `RustOutcome` result. -/
def distro_xml (data : Str) : RustOutcome (Except WhoError Str) :=
  match findSub "<dict>".data data, findSub "</dict>".data data with
  | some s, some e =>
    if s + 6 ≤ e then
      let region := (data.take e).drop (s + 6)
      .normal (dxCombine ((splitOnChar '\n' region).foldl dxLine dxInit))
    else
      .panicked "slice index starts at a position past the end"
  | _, _ => .normal (dxCombine dxInit)

/-! ### The text record parser (`distro` scan over `/etc/os-release`) -/

/-- The scan loop of `distro` over the lines of `/etc/os-release`: each line
is split on `'='`; a `PRETTY_NAME` first segment returns the second segment
quote-trimmed at once, a `NAME` first segment stores it as the fallback, a
key without any `'='` on its line is an immediate parse failure, and the
fallback (if any) is returned after the last line. -/
def distroScan : List Str → Option Str → Except WhoError Str
  | [], fallback =>
    match fallback with
    | some f => .ok f
    | none => .error parseFailed
  | line :: rest, fallback =>
    match splitOnChar '=' line with
    | [] => .error parseFailed
    | key :: vals =>
      if key = "PRETTY_NAME".data then
        match vals with
        | v :: _ => .ok (trimQuotes v)
        | [] => .error parseFailed
      else if key = "NAME".data then
        match vals with
        | v :: _ => distroScan rest (some (trimQuotes v))
        | [] => .error parseFailed
      else distroScan rest fallback

/-! ### The desktop-environment and architecture classifiers -/

/-- The case-insensitive if-chain classifying the `DESKTOP_SESSION` value;
an unrecognized value maps to `Unknown` carrying it verbatim. -/
def classifyDesktop (env : Str) : DesktopEnv :=
  if eqIgnoreAsciiCase env "AQUA".data then .Aqua
  else if eqIgnoreAsciiCase env "GNOME".data then .Gnome
  else if eqIgnoreAsciiCase env "LXDE".data then .Lxde
  else if eqIgnoreAsciiCase env "OPENBOX".data then .Openbox
  else if eqIgnoreAsciiCase env "I3".data then .I3
  else if eqIgnoreAsciiCase env "UBUNTU".data then .Ubuntu
  else if eqIgnoreAsciiCase env "PLASMA5".data then .Kde
  else .Unknown env

/-- The fixed alias table classifying the `uname` machine string; an
unrecognized value maps to `Unknown` carrying it verbatim. -/
def classifyArch (s : Str) : Arch :=
  if s = "aarch64".data ∨ s = "arm64".data ∨ s = "aarch64_be".data ∨
      s = "armv8b".data ∨ s = "armv8l".data then .Arm64
  else if s = "armv5".data then .ArmV5
  else if s = "armv6".data ∨ s = "arm".data then .ArmV6
  else if s = "armv7".data then .ArmV7
  else if s = "i386".data then .I386
  else if s = "i586".data then .I586
  else if s = "i686".data ∨ s = "i686-AT386".data then .I686
  else if s = "mips".data then .Mips
  else if s = "mipsel".data then .MipsEl
  else if s = "mips64".data then .Mips64
  else if s = "mips64el".data then .Mips64El
  else if s = "powerpc".data ∨ s = "ppc".data ∨ s = "ppcle".data then .PowerPc
  else if s = "powerpc64".data ∨ s = "ppc64".data ∨ s = "ppc64le".data then .PowerPc64
  else if s = "powerpc64le".data then .PowerPc64Le
  else if s = "riscv32".data then .Riscv32
  else if s = "riscv64".data then .Riscv64
  else if s = "s390x".data then .S390x
  else if s = "sparc".data then .Sparc
  else if s = "sparc64".data then .Sparc64
  else if s = "x86_64".data ∨ s = "amd64".data then .X64
  else .Unknown s

/-! ### UTF-8 validation (for `String::from_utf8` in `hostname`) -/

/-- Is `b` a UTF-8 continuation byte (`0x80..0xBF`)? -/
def utf8Cont (b : Nat) : Bool := 0x80 ≤ b && b < 0xC0

/-- Strict UTF-8 decoding of a byte list into code points (`none` on any
malformed, overlong, surrogate or out-of-range sequence), mirroring the
validation performed by `String::from_utf8`. -/
def utf8Run : List Nat → Option (List Nat)
  | [] => some []
  | b :: rest =>
    if b < 0x80 then (utf8Run rest).map (b :: ·)
    else if b < 0xC2 then none
    else if b < 0xE0 then
      match rest with
      | b2 :: r =>
        if utf8Cont b2 then
          (utf8Run r).map (((b - 0xC0) * 0x40 + (b2 - 0x80)) :: ·)
        else none
      | [] => none
    else if b < 0xF0 then
      match rest with
      | b2 :: b3 :: r =>
        let cp := (b - 0xE0) * 0x1000 + (b2 - 0x80) * 0x40 + (b3 - 0x80)
        if utf8Cont b2 && utf8Cont b3 && decide (0x800 ≤ cp) &&
            !(decide (0xD800 ≤ cp) && decide (cp < 0xE000)) then
          (utf8Run r).map (cp :: ·)
        else none
      | _ => none
    else if b < 0xF5 then
      match rest with
      | b2 :: b3 :: b4 :: r =>
        let cp := (b - 0xF0) * 0x40000 + (b2 - 0x80) * 0x1000 +
          (b3 - 0x80) * 0x40 + (b4 - 0x80)
        if utf8Cont b2 && utf8Cont b3 && utf8Cont b4 &&
            decide (0x10000 ≤ cp) && decide (cp < 0x110000) then
          (utf8Run r).map (cp :: ·)
        else none
      | _ => none
    else none

/-- `String::from_utf8` on the model: decode bytes to characters. -/
def fromUtf8 (bs : List Nat) : Option Str :=
  (utf8Run bs).map (List.map Char.ofNat)

/-! ### The platform capability facade (`impl Target for Os`), embedded for
the targets outside the `macos`/`illumos` special cases (the `cfg` branches
compiled on Linux-family systems) -/

/-- The `Name` selector of `getpwuid`. -/
inductive Name where
  | User
  | Real

/-- `getpwuid`: effective-user database lookup; a missing record is a
`NotFound` "Null record" error, and the account name or gecos field is the
result. -/
def getpwuid (which : Name) (st : OsState) : Except WhoError Str :=
  match st.userLookup with
  | .error e => .error e
  | .ok none => .error ⟨.notFound, "Null record"⟩
  | .ok (some u) =>
    match which with
    | .User => .ok u.name
    | .Real => .ok u.gecos

/-- `Os::realname`. -/
def Os.realname (st : OsState) : Except WhoError Str := getpwuid .Real st

/-- `Os::username`. -/
def Os.username (st : OsState) : Except WhoError Str := getpwuid .User st

/-- The line scan of `Os::devicename`: the first line whose first
`'='`-segment is `PRETTY_HOSTNAME` and which has a second segment yields
that second segment; a `PRETTY_HOSTNAME` line without `'='` is skipped. -/
def devicenameScan : List Str → Option Str
  | [] => none
  | line :: rest =>
    match splitOnChar '=' line with
    | [] => devicenameScan rest
    | key :: vals =>
      if key = "PRETTY_HOSTNAME".data then
        match vals with
        | v :: _ => some v
        | [] => devicenameScan rest
      else devicenameScan rest

/-- `Os::devicename` (non-Apple, non-Illumos branch): read
`/etc/machine-info` (propagating the read error via `?`), scan for a
`PRETTY_HOSTNAME` value, and fail with `NotFound` "Missing record" when the
scan finds none.  No other data source is consulted. -/
def Os.devicename (st : OsState) : Except WhoError Str :=
  match st.machineInfo with
  | .error e => .error e
  | .ok mi =>
    match devicenameScan (splitOnChar '\n' mi) with
    | some v => .ok v
    | none => .error ⟨.notFound, "Missing record"⟩

/-- `Os::hostname`: take the `gethostname` buffer up to the first NUL
(`strlen`) and validate it as UTF-8. -/
def Os.hostname (st : OsState) : Except WhoError Str :=
  match st.gethostnameBuf with
  | .error e => .error e
  | .ok buf =>
    match fromUtf8 (buf.takeWhile (fun b => b != 0)) with
    | some s => .ok s
    | none => .error ⟨.invalidData, "Hostname not valid UTF-8"⟩

/-- `Os::distro` (non-macOS branch): read `/etc/os-release` (propagating the
read error) and run the text record scan with no fallback captured yet. -/
def Os.distro (st : OsState) : Except WhoError Str :=
  match st.osRelease with
  | .error e => .error e
  | .ok content => distroScan (splitOnChar '\n' content) none

/-- `Os::desktop_env` (non-macOS branch): an unset `DESKTOP_SESSION` yields
`Unknown("Unknown")`, otherwise the value is classified. -/
def Os.desktop_env (st : OsState) : DesktopEnv :=
  match st.desktopSession with
  | none => .Unknown "Unknown".data
  | some env => classifyDesktop env

/-- `Os::platform` for the embedded (Linux-family) target: a compile-time
constant. -/
def Os.platform (_st : OsState) : Platform := .Linux

/-- `Os::arch`: propagate a `uname` failure, otherwise classify the decoded
machine field; classification itself never fails. -/
def Os.arch (st : OsState) : Except WhoError Arch :=
  match st.unameRes with
  | .error e => .error e
  | .ok u => .ok (classifyArch u.machine)

/-- `Os::langs` is `todo!()` in the source: every call panics with the
standard `todo!()` message instead of returning a value or error. -/
def Os.langs (_st : OsState) : RustOutcome (List Language) :=
  .panicked "not yet implemented"

/-- Two successive calls of an accessor with no intervening system change:
both calls observe the same read-only `OsState` (the source performs no
writes to any of the consulted sources), and the pair of results is
returned. -/
def callTwice {α : Type} (f : OsState → α) (st : OsState) : α × α :=
  (f st, f st)

/-! ### Concrete states used to evaluate the facade in the theorems -/

/-- A concrete `uname` success record. -/
def utsBase : UtsNameS :=
  ⟨"Linux".data, "myhost".data, "6.1.0".data, "#1 SMP".data, "x86_64".data⟩

/-- A concrete baseline OS state (both metadata files unreadable, ordinary
user record, successful syscalls). -/
def stBase : OsState where
  langEnv := none
  desktopSession := none
  userLookup := .ok (some ⟨"jdoe".data, "Jane Doe".data⟩)
  machineInfo := .error ⟨.notFound, "No such file or directory (os error 2)"⟩
  osRelease := .error ⟨.notFound, "No such file or directory (os error 2)"⟩
  gethostnameBuf := .ok ([104, 111, 115, 116, 0])
  unameRes := .ok utsBase

/-- The baseline state with a readable `/etc/os-release` of the given
contents. -/
def stOsRelease (content : Str) : OsState :=
  { stBase with osRelease := .ok content }

/-- The baseline state with a readable `/etc/machine-info` of the given
contents. -/
def stMachineInfo (content : Str) : OsState :=
  { stBase with machineInfo := .ok content }

/-- The baseline state with `DESKTOP_SESSION` set to the given value. -/
def stDesktop (v : Str) : OsState :=
  { stBase with desktopSession := some v }

/-! ### The claim's reading of the text record parser, for comparison -/

/-- Split at the first occurrence of `sep` only: the part before it, and
(`some`) everything after it, `none` when `sep` does not occur. -/
def splitFirst (sep : Char) : Str → Str × Option Str
  | [] => ([], none)
  | c :: t =>
    if c = sep then ([], some t)
    else
      let p := splitFirst sep t
      (c :: p.1, p.2)

/-- The text-record scan as the claim words it ("splits each line on the
first `'='`"): the value of a matching line is *everything after the first
`'='`*, quote-stripped — to be compared with `distroScan`, which takes only
the segment before the next `'='`. -/
def distroSpecScan : List Str → Option Str → Except WhoError Str
  | [], fallback =>
    match fallback with
    | some f => .ok f
    | none => .error parseFailed
  | line :: rest, fallback =>
    let p := splitFirst '=' line
    if p.1 = "PRETTY_NAME".data then
      match p.2 with
      | some v => .ok (trimQuotes v)
      | none => .error parseFailed
    else if p.1 = "NAME".data then
      match p.2 with
      | some v => distroSpecScan rest (some (trimQuotes v))
      | none => .error parseFailed
    else distroSpecScan rest fallback

/-- The claim's reading of the whole `distro` parse of a readable
`/etc/os-release`. -/
def distroSpec (content : Str) : Except WhoError Str :=
  distroSpecScan (splitOnChar '\n' content) none

/-! ### Property-list example inputs from the claims -/

/-- A `SystemVersion.plist`-style fragment with `ProductName` and
`ProductUserVisibleVersion`. -/
def dxEx1 : Str :=
  "<dict>\n<key>ProductName</key>\n<string>macOS</string>\n<key>ProductUserVisibleVersion</key>\n<string>14.0</string>\n</dict>".data

/-- A fragment with only the `ProductVersion` synonym key. -/
def dxEx2 : Str :=
  "<dict>\n<key>ProductVersion</key>\n<string>14.0</string>\n</dict>".data

/-- A fragment with neither name nor version key. -/
def dxEx3 : Str :=
  "<dict>\n<key>Other</key>\n<string>x</string>\n</dict>".data

end Whoami

deriving instance DecidableEq for Except

namespace Whoami

/-! ## Theorems -/

/-- Any fuel of at least `3` collects the same sequence as fuel `3`, so
`langList` is the list of every value the iterator ever emits. -/
theorem collectF_stable (it : LangIter) (n : Nat) :
    LangIter.collectF (n + 3) it = LangIter.collectF 3 it := by
  obtain ⟨a, i⟩ := it
  match i with
  | none => simp [LangIter.collectF, LangIter.next]
  | some false => simp [LangIter.collectF, LangIter.next]
  | some true =>
    by_cases h : a.any (fun c => c == '-')
    · simp [LangIter.collectF, LangIter.next, h]
    · simp [LangIter.collectF, LangIter.next, h]

/-- If `s` equals `t` up to ASCII case, every case-insensitive comparison of
`s` is decided by the corresponding comparison of `t`. -/
theorem eqIgnore_cond {s t : Str} (h : eqIgnoreAsciiCase s t = true) (u : Str) :
    eqIgnoreAsciiCase s u = (t.map asciiLower == u.map asciiLower) := by
  unfold eqIgnoreAsciiCase at *
  rw [eq_of_beq h]

/-- The architecture alias table never loses the raw string: an `Unknown`
result carries its input verbatim. -/
theorem classifyArch_unknown_raw : ∀ s r, classifyArch s = .Unknown r → r = s := by
  intro s r h
  unfold classifyArch at h
  by_cases c1 : s = "aarch64".data ∨ s = "arm64".data ∨ s = "aarch64_be".data ∨ s = "armv8b".data ∨ s = "armv8l".data
  · rw [if_pos c1] at h
    exact Arch.noConfusion h
  · rw [if_neg c1] at h
    by_cases c2 : s = "armv5".data
    · rw [if_pos c2] at h
      exact Arch.noConfusion h
    · rw [if_neg c2] at h
      by_cases c3 : s = "armv6".data ∨ s = "arm".data
      · rw [if_pos c3] at h
        exact Arch.noConfusion h
      · rw [if_neg c3] at h
        by_cases c4 : s = "armv7".data
        · rw [if_pos c4] at h
          exact Arch.noConfusion h
        · rw [if_neg c4] at h
          by_cases c5 : s = "i386".data
          · rw [if_pos c5] at h
            exact Arch.noConfusion h
          · rw [if_neg c5] at h
            by_cases c6 : s = "i586".data
            · rw [if_pos c6] at h
              exact Arch.noConfusion h
            · rw [if_neg c6] at h
              by_cases c7 : s = "i686".data ∨ s = "i686-AT386".data
              · rw [if_pos c7] at h
                exact Arch.noConfusion h
              · rw [if_neg c7] at h
                by_cases c8 : s = "mips".data
                · rw [if_pos c8] at h
                  exact Arch.noConfusion h
                · rw [if_neg c8] at h
                  by_cases c9 : s = "mipsel".data
                  · rw [if_pos c9] at h
                    exact Arch.noConfusion h
                  · rw [if_neg c9] at h
                    by_cases c10 : s = "mips64".data
                    · rw [if_pos c10] at h
                      exact Arch.noConfusion h
                    · rw [if_neg c10] at h
                      by_cases c11 : s = "mips64el".data
                      · rw [if_pos c11] at h
                        exact Arch.noConfusion h
                      · rw [if_neg c11] at h
                        by_cases c12 : s = "powerpc".data ∨ s = "ppc".data ∨ s = "ppcle".data
                        · rw [if_pos c12] at h
                          exact Arch.noConfusion h
                        · rw [if_neg c12] at h
                          by_cases c13 : s = "powerpc64".data ∨ s = "ppc64".data ∨ s = "ppc64le".data
                          · rw [if_pos c13] at h
                            exact Arch.noConfusion h
                          · rw [if_neg c13] at h
                            by_cases c14 : s = "powerpc64le".data
                            · rw [if_pos c14] at h
                              exact Arch.noConfusion h
                            · rw [if_neg c14] at h
                              by_cases c15 : s = "riscv32".data
                              · rw [if_pos c15] at h
                                exact Arch.noConfusion h
                              · rw [if_neg c15] at h
                                by_cases c16 : s = "riscv64".data
                                · rw [if_pos c16] at h
                                  exact Arch.noConfusion h
                                · rw [if_neg c16] at h
                                  by_cases c17 : s = "s390x".data
                                  · rw [if_pos c17] at h
                                    exact Arch.noConfusion h
                                  · rw [if_neg c17] at h
                                    by_cases c18 : s = "sparc".data
                                    · rw [if_pos c18] at h
                                      exact Arch.noConfusion h
                                    · rw [if_neg c18] at h
                                      by_cases c19 : s = "sparc64".data
                                      · rw [if_pos c19] at h
                                        exact Arch.noConfusion h
                                      · rw [if_neg c19] at h
                                        by_cases c20 : s = "x86_64".data ∨ s = "amd64".data
                                        · rw [if_pos c20] at h
                                          exact Arch.noConfusion h
                                        · rw [if_neg c20] at h
                                          injection h with h1
                                          exact h1.symm

/-- The desktop-environment if-chain never loses the raw string: an
`Unknown` result carries its input verbatim. -/
theorem classifyDesktop_unknown_raw :
    ∀ s r, classifyDesktop s = .Unknown r → r = s := by
  intro s r h
  unfold classifyDesktop at h
  repeat' split at h
  all_goals first
    | exact DesktopEnv.noConfusion h
    | (injection h with h1; exact h1.symm)

/-- Claim C1 (counterexample): with `/etc/machine-info` readable but lacking
the `PRETTY_HOSTNAME` key and the identification syscall succeeding with
node name `myhost`, the device-name query does *not* return the syscall's
node name — it returns a `NotFound` "Missing record" error, because the
non-Apple, non-Illumos branch never consults the syscall. -/
theorem spec_c1_counterexample :
    (stMachineInfo "FOO=bar".data).unameRes = Except.ok utsBase ∧
    utsBase.nodename = "myhost".data ∧
    Os.devicename (stMachineInfo "FOO=bar".data) =
      .error ⟨.notFound, "Missing record"⟩ ∧
    Os.devicename (stMachineInfo "FOO=bar".data) ≠ .ok "myhost".data :=
  ⟨rfl, rfl, by decide, by decide⟩

/-- Claim C1 (amended): on non-Apple, non-Illumos platforms the device-name
query never consults the identification syscall.  If the metadata file read
fails, that read's error is returned unchanged (so no combined error naming
both causes exists); if the file is read but contains no `PRETTY_HOSTNAME`
value, a `NotFound` "Missing record" error is returned; and the result is
independent of the syscall outcome. -/
theorem spec_c1_amended :
    (∀ st e, st.machineInfo = .error e → Os.devicename st = .error e) ∧
    (∀ st mi, st.machineInfo = .ok mi →
      devicenameScan (splitOnChar '\n' mi) = none →
      Os.devicename st = .error ⟨.notFound, "Missing record"⟩) ∧
    (∀ (st : OsState) (u1 u2 : Except WhoError UtsNameS),
      Os.devicename { st with unameRes := u1 } =
        Os.devicename { st with unameRes := u2 }) := by
  refine ⟨?_, ?_, ?_⟩
  · intro st e h
    simp [Os.devicename, h]
  · intro st mi h1 h2
    simp [Os.devicename, h1, h2]
  · intro st u1 u2
    rfl

/-- Claim C1 (witness): the amended theorem applied to the baseline state
(file read fails) and to a state whose file lacks the key. -/
theorem spec_c1_witness :
    stBase.machineInfo =
      Except.error ⟨.notFound, "No such file or directory (os error 2)"⟩ ∧
    Os.devicename stBase =
      .error ⟨.notFound, "No such file or directory (os error 2)"⟩ ∧
    (stMachineInfo "FOO=bar".data).machineInfo = .ok "FOO=bar".data ∧
    devicenameScan (splitOnChar '\n' "FOO=bar".data) = none ∧
    Os.devicename (stMachineInfo "FOO=bar".data) =
      .error ⟨.notFound, "Missing record"⟩ :=
  ⟨rfl, spec_c1_amended.1 stBase _ rfl, rfl, by decide,
    spec_c1_amended.2.1 (stMachineInfo "FOO=bar".data) _ rfl (by decide)⟩

/-- Claim C2 (counterexample): for input `en_US.UTF-8` the decomposer emits
the region-qualified tag first and the base language second —
`["en-US", "en"]` — not `["en", "en-US"]` as claimed. -/
theorem spec_c2_counterexample :
    langList (some "en_US.UTF-8".data) = ["en-US".data, "en".data] ∧
    ["en-US".data, "en".data] ≠ ["en".data, "en-US".data] := by
  decide

/-- Claim C2 (amended): input `en_US.UTF-8` yields exactly the sequence
`["en-US", "en"]` (region-qualified first, base language second); input `C`
is substituted by the default and yields `["en-US", "en"]`; input `fr` (no
region) yields exactly `["fr"]` with a single emission, after which the
iterator terminates. -/
theorem spec_c2_amended :
    langList (some "en_US.UTF-8".data) = ["en-US".data, "en".data] ∧
    langList (some "C".data) = ["en-US".data, "en".data] ∧
    langList (some "fr".data) = ["fr".data] ∧
    (lang (some "fr".data)).next = some ("fr".data, ⟨[], none⟩) ∧
    LangIter.next ⟨[], none⟩ = none := by
  decide

/-- Claim C3: refuted by the source — `Os::langs` is `todo!()`, so the
language-preferences operation of the facade panics on every invocation
instead of returning a value or a typed failure. -/
theorem spec_c3_langs_panics :
    ∀ st : OsState, Os.langs st = .panicked "not yet implemented" ∧
      ∀ v : List Language, Os.langs st ≠ .normal v :=
  fun _ => ⟨rfl, fun _ h => RustOutcome.noConfusion h⟩

/-- Claim C4 (counterexample): the scan does not split each line on the
*first* `'='` only — on the line `PRETTY_NAME=A=B` the code returns `A`
(the segment between the first and second `'='`), while the claim's reading
(value = everything after the first `'='`) returns `A=B`. -/
theorem spec_c4_counterexample :
    Os.distro (stOsRelease "PRETTY_NAME=A=B".data) = .ok "A".data ∧
    distroSpec "PRETTY_NAME=A=B".data = .ok "A=B".data ∧
    "A".data ≠ "A=B".data := by
  decide

/-- Claim C4 (amended): the text record parser splits each line on `'='`
separators and takes the segment *between the first and second* `'='` as
the value (a value containing `'='` is truncated there); it returns the
primary key's quote-stripped value immediately upon match, stopping the
scan; if the primary key never appears but the fallback key does, the
fallback's quote-stripped value is returned after the full scan; and it
fails with a ParseError when neither key is present.  With
`PRETTY_NAME="Foo 10"` and `NAME="Foo"` present it yields `Foo 10`; with
only `NAME` present it yields `Foo`. -/
theorem spec_c4_amended :
    Os.distro (stOsRelease "PRETTY_NAME=\"Foo 10\"\nNAME=\"Foo\"".data) =
      .ok "Foo 10".data ∧
    Os.distro (stOsRelease "NAME=\"Foo\"".data) = .ok "Foo".data ∧
    Os.distro (stOsRelease "ID=debian".data) = .error parseFailed ∧
    (∀ line rest fb v vs, splitOnChar '=' line = "PRETTY_NAME".data :: v :: vs →
      distroScan (line :: rest) fb = .ok (trimQuotes v)) ∧
    (∀ lines : List Str,
      (∀ l ∈ lines, ∀ k vs, splitOnChar '=' l = k :: vs →
        k ≠ "PRETTY_NAME".data ∧ k ≠ "NAME".data) →
      distroScan lines none = .error parseFailed) := by
  refine ⟨by decide, by decide, by decide, ?_, ?_⟩
  · intro line rest fb v vs h
    simp [distroScan, h]
  · intro lines h
    induction lines with
    | nil => rfl
    | cons l t ih =>
      have iht : distroScan t none = .error parseFailed :=
        ih fun x hx => h x (List.mem_cons_of_mem l hx)
      cases hs : splitOnChar '=' l with
      | nil => simp [distroScan, hs]
      | cons k vs =>
        obtain ⟨h1, h2⟩ := h l (List.mem_cons_self l t) k vs hs
        simp [distroScan, hs, h1, h2, iht]

/-- Claim C4 (witness): the amended theorem's general clauses applied to the
concrete lines `PRETTY_NAME=x` and `ID=y`. -/
theorem spec_c4_witness :
    splitOnChar '=' "PRETTY_NAME=x".data = ["PRETTY_NAME".data, "x".data] ∧
    distroScan ["PRETTY_NAME=x".data] none = .ok (trimQuotes "x".data) ∧
    distroScan ["ID=y".data] none = .error parseFailed := by
  refine ⟨by decide,
    spec_c4_amended.2.2.2.1 "PRETTY_NAME=x".data [] none "x".data [] (by decide),
    spec_c4_amended.2.2.2.2 ["ID=y".data] ?_⟩
  intro l hl k vs hkv
  simp only [List.mem_singleton] at hl
  subst hl
  rw [show splitOnChar '=' "ID=y".data = ["ID".data, "y".data] from by decide] at hkv
  injection hkv with e1 _
  subst e1
  exact ⟨by decide, by decide⟩

/-- Claim C5: the property-list fragment parser combines its two collected
fields as claimed — `ProductName`+`ProductUserVisibleVersion` give
`macOS 14.0`, a lone `ProductVersion` (the synonym key, which never
overrides a captured version) gives `Mac OS (Unknown) 14.0`, neither key is
a ParseError; and the combination rules hold for all collected fields. -/
theorem spec_c5 :
    distro_xml dxEx1 = .normal (.ok "macOS 14.0".data) ∧
    distro_xml dxEx2 = .normal (.ok "Mac OS (Unknown) 14.0".data) ∧
    distro_xml dxEx3 = .normal (.error parseFailed) ∧
    (∀ pn v b1 b2,
      dxCombine ⟨some pn, some v, b1, b2⟩ = .ok (pn ++ " ".data ++ v) ∧
      dxCombine ⟨some pn, none, b1, b2⟩ = .ok pn ∧
      dxCombine ⟨none, some v, b1, b2⟩ = .ok ("Mac OS (Unknown) ".data ++ v) ∧
      dxCombine ⟨none, none, b1, b2⟩ = .error parseFailed) ∧
    (∀ st v, st.user_visible_version = some v →
      dxLine st "<key>ProductVersion</key>".data = st) := by
  refine ⟨by decide, by decide, by decide, ?_, ?_⟩
  · intro pn v b1 b2
    exact ⟨rfl, rfl, rfl, rfl⟩
  · intro st v h
    simp +decide [dxLine, h]

/-- Claim C5 (witness): the combination clauses and the no-override clause
applied at concrete fields. -/
theorem spec_c5_witness :
    dxCombine ⟨some "macOS".data, some "14.0".data, false, false⟩ =
      .ok "macOS 14.0".data ∧
    (⟨some "macOS".data, some "14.0".data, false, false⟩ : DxState).user_visible_version =
      some "14.0".data ∧
    dxLine ⟨some "macOS".data, some "14.0".data, false, false⟩
      "<key>ProductVersion</key>".data =
      ⟨some "macOS".data, some "14.0".data, false, false⟩ := by
  refine ⟨?_, rfl, spec_c5.2.2.2.2 _ "14.0".data rfl⟩
  have h := (spec_c5.2.2.2.1 "macOS".data "14.0".data false false).1
  simpa using h

/-- Claim C6: both classifications are additive — whenever they produce the
`Unknown` variant it carries exactly the raw input string — and an
unrecognized value is never an error: with a successful syscall the
architecture query returns `ok` of the classification, and the
desktop-environment query always returns a classification. -/
theorem spec_c6 :
    (∀ s r, classifyDesktop s = .Unknown r → r = s) ∧
    (∀ s r, classifyArch s = .Unknown r → r = s) ∧
    (∀ st u, st.unameRes = .ok u → Os.arch st = .ok (classifyArch u.machine)) ∧
    (∀ st env, st.desktopSession = some env →
      Os.desktop_env st = classifyDesktop env) := by
  refine ⟨classifyDesktop_unknown_raw, classifyArch_unknown_raw, ?_, ?_⟩
  · intro st u h
    simp [Os.arch, h]
  · intro st env h
    simp [Os.desktop_env, h]

/-- Claim C6 (witness): the preservation and no-error clauses applied at
concrete unrecognized values and at the baseline state. -/
theorem spec_c6_witness :
    classifyDesktop "mate".data = DesktopEnv.Unknown "mate".data ∧
    classifyArch "loong".data = Arch.Unknown "loong".data ∧
    "mate".data = "mate".data ∧
    "loong".data = "loong".data ∧
    Os.arch stBase = .ok (classifyArch utsBase.machine) ∧
    Os.desktop_env (stDesktop "mate".data) = classifyDesktop "mate".data :=
  ⟨by decide, by decide,
    spec_c6.1 "mate".data "mate".data (by decide),
    spec_c6.2.1 "loong".data "loong".data (by decide),
    spec_c6.2.2.1 stBase utsBase rfl,
    spec_c6.2.2.2 (stDesktop "mate".data) "mate".data rfl⟩

/-- Claim C7: the architecture classifier maps both `x86_64` and `amd64` to
`X64`, and maps the out-of-table string `loongarch64` to `Unknown` carrying
exactly that string. -/
theorem spec_c7 :
    classifyArch "x86_64".data = .X64 ∧
    classifyArch "amd64".data = .X64 ∧
    classifyArch "loongarch64".data = .Unknown "loongarch64".data := by
  decide

/-- Claim C8: desktop-environment classification is ASCII-case-insensitive
for every recognized name (any string case-equal to a table entry maps to
that entry's variant), an unset session variable yields
`Unknown("Unknown")`, and in particular `gnome`, `GNOME` and `Gnome` all
classify to `Gnome`. -/
theorem spec_c8 :
    (∀ s, eqIgnoreAsciiCase s "AQUA".data = true → classifyDesktop s = .Aqua) ∧
    (∀ s, eqIgnoreAsciiCase s "GNOME".data = true → classifyDesktop s = .Gnome) ∧
    (∀ s, eqIgnoreAsciiCase s "LXDE".data = true → classifyDesktop s = .Lxde) ∧
    (∀ s, eqIgnoreAsciiCase s "OPENBOX".data = true → classifyDesktop s = .Openbox) ∧
    (∀ s, eqIgnoreAsciiCase s "I3".data = true → classifyDesktop s = .I3) ∧
    (∀ s, eqIgnoreAsciiCase s "UBUNTU".data = true → classifyDesktop s = .Ubuntu) ∧
    (∀ s, eqIgnoreAsciiCase s "PLASMA5".data = true → classifyDesktop s = .Kde) ∧
    (∀ st : OsState, st.desktopSession = none →
      Os.desktop_env st = .Unknown "Unknown".data) ∧
    classifyDesktop "gnome".data = .Gnome ∧
    classifyDesktop "GNOME".data = .Gnome ∧
    classifyDesktop "Gnome".data = .Gnome := by
  refine ⟨?_, ?_, ?_, ?_, ?_, ?_, ?_, ?_, by decide, by decide, by decide⟩
  · intro s h
    simp +decide [classifyDesktop, eqIgnore_cond h]
  · intro s h
    simp +decide [classifyDesktop, eqIgnore_cond h]
  · intro s h
    simp +decide [classifyDesktop, eqIgnore_cond h]
  · intro s h
    simp +decide [classifyDesktop, eqIgnore_cond h]
  · intro s h
    simp +decide [classifyDesktop, eqIgnore_cond h]
  · intro s h
    simp +decide [classifyDesktop, eqIgnore_cond h]
  · intro s h
    simp +decide [classifyDesktop, eqIgnore_cond h]
  · intro st h
    simp [Os.desktop_env, h]

/-- Claim C8 (witness): the case-insensitivity clause applied at `Gnome`
and the unset clause applied at the baseline state. -/
theorem spec_c8_witness :
    eqIgnoreAsciiCase "Gnome".data "GNOME".data = true ∧
    classifyDesktop "Gnome".data = .Gnome ∧
    stBase.desktopSession = none ∧
    Os.desktop_env stBase = .Unknown "Unknown".data :=
  ⟨by decide, spec_c8.2.1 "Gnome".data (by decide), rfl,
    spec_c8.2.2.2.2.2.2.2.1 stBase rfl⟩

/-- Claim C9: every facade accessor is a pure function of the read-only OS
state (the source only reads environment variables, files and syscall
buffers), so two successive calls under an unchanged state return identical
results. -/
theorem spec_c9 :
    ∀ st : OsState,
      (callTwice Os.realname st).1 = (callTwice Os.realname st).2 ∧
      (callTwice Os.username st).1 = (callTwice Os.username st).2 ∧
      (callTwice Os.devicename st).1 = (callTwice Os.devicename st).2 ∧
      (callTwice Os.hostname st).1 = (callTwice Os.hostname st).2 ∧
      (callTwice Os.distro st).1 = (callTwice Os.distro st).2 ∧
      (callTwice Os.desktop_env st).1 = (callTwice Os.desktop_env st).2 ∧
      (callTwice Os.platform st).1 = (callTwice Os.platform st).2 ∧
      (callTwice Os.arch st).1 = (callTwice Os.arch st).2 :=
  fun _ => ⟨rfl, rfl, rfl, rfl, rfl, rfl, rfl, rfl⟩

/-- Claim C10: with `LANG` unset or empty the decomposer yields exactly one
emission, the empty string; the default tag is substituted exactly when the
encoding-stripped locale is `C` (and the stripped value of an unset or
empty variable is the empty string, not `C`). -/
theorem spec_c10 :
    langList none = [[]] ∧
    langList (some []) = [[]] ∧
    (∀ v : Option Str, langStrip v = "C".data →
      langArray v = DEFAULT_LANG.map underscoreToHyphen) ∧
    (∀ v : Option Str, langStrip v ≠ "C".data →
      langArray v = (langStrip v).map underscoreToHyphen) ∧
    DEFAULT_LANG.map underscoreToHyphen = "en-US".data ∧
    langStrip none = [] ∧
    langStrip (some []) = [] := by
  refine ⟨by decide, by decide, ?_, ?_, by decide, by decide, by decide⟩
  · intro v h
    simp [langArray, h]
  · intro v h
    simp [langArray, h]

/-- Claim C10 (witness): the substitution clauses applied at the locales
`C` and `fr`. -/
theorem spec_c10_witness :
    langStrip (some "C".data) = "C".data ∧
    langArray (some "C".data) = DEFAULT_LANG.map underscoreToHyphen ∧
    langStrip (some "fr".data) ≠ "C".data ∧
    langArray (some "fr".data) = (langStrip (some "fr".data)).map underscoreToHyphen :=
  ⟨by decide, spec_c10.2.2.1 (some "C".data) (by decide), by decide,
    spec_c10.2.2.2.1 (some "fr".data) (by decide)⟩

end Whoami
